import Mathlib

/-!
Verification model of the g4f.dev API-gateway Cloudflare Worker
(`src/worker.js`): JSON model-list normalization, catalog building with
partial-failure tolerance, chat-request dispatch, and the HTTP entry point.

JavaScript values returned by upstream JSON endpoints are modelled by an
inductive `Json` type; JavaScript truthiness and property access (which
throws a `TypeError` on `null`) are modelled explicitly; code that can
throw is modelled with `Except String`.
-/

/-- JSON values as produced by `response.json()` / `request.json()`. -/
inductive Json where
  | null : Json
  | bool (b : Bool) : Json
  | num (n : Int) : Json
  | str (s : String) : Json
  | arr (elems : List Json) : Json
  | obj (fields : List (String × Json)) : Json
deriving Repr

mutual

/-- Decidable equality of JSON values. -/
def Json.decEq : (a b : Json) → Decidable (a = b)
  | .null, .null => isTrue rfl
  | .null, .bool _ => isFalse Json.noConfusion
  | .null, .num _ => isFalse Json.noConfusion
  | .null, .str _ => isFalse Json.noConfusion
  | .null, .arr _ => isFalse Json.noConfusion
  | .null, .obj _ => isFalse Json.noConfusion
  | .bool _, .null => isFalse Json.noConfusion
  | .bool a, .bool b =>
      if h : a = b then isTrue (by rw [h]) else isFalse (fun hh => h (by injection hh))
  | .bool _, .num _ => isFalse Json.noConfusion
  | .bool _, .str _ => isFalse Json.noConfusion
  | .bool _, .arr _ => isFalse Json.noConfusion
  | .bool _, .obj _ => isFalse Json.noConfusion
  | .num _, .null => isFalse Json.noConfusion
  | .num _, .bool _ => isFalse Json.noConfusion
  | .num a, .num b =>
      if h : a = b then isTrue (by rw [h]) else isFalse (fun hh => h (by injection hh))
  | .num _, .str _ => isFalse Json.noConfusion
  | .num _, .arr _ => isFalse Json.noConfusion
  | .num _, .obj _ => isFalse Json.noConfusion
  | .str _, .null => isFalse Json.noConfusion
  | .str _, .bool _ => isFalse Json.noConfusion
  | .str _, .num _ => isFalse Json.noConfusion
  | .str a, .str b =>
      if h : a = b then isTrue (by rw [h]) else isFalse (fun hh => h (by injection hh))
  | .str _, .arr _ => isFalse Json.noConfusion
  | .str _, .obj _ => isFalse Json.noConfusion
  | .arr _, .null => isFalse Json.noConfusion
  | .arr _, .bool _ => isFalse Json.noConfusion
  | .arr _, .num _ => isFalse Json.noConfusion
  | .arr _, .str _ => isFalse Json.noConfusion
  | .arr xs, .arr ys =>
      match Json.decEqList xs ys with
      | isTrue h => isTrue (by rw [h])
      | isFalse h => isFalse (fun hh => h (by injection hh))
  | .arr _, .obj _ => isFalse Json.noConfusion
  | .obj _, .null => isFalse Json.noConfusion
  | .obj _, .bool _ => isFalse Json.noConfusion
  | .obj _, .num _ => isFalse Json.noConfusion
  | .obj _, .str _ => isFalse Json.noConfusion
  | .obj _, .arr _ => isFalse Json.noConfusion
  | .obj xs, .obj ys =>
      match Json.decEqFields xs ys with
      | isTrue h => isTrue (by rw [h])
      | isFalse h => isFalse (fun hh => h (by injection hh))

/-- Decidable equality of JSON arrays. -/
def Json.decEqList : (a b : List Json) → Decidable (a = b)
  | [], [] => isTrue rfl
  | [], _ :: _ => isFalse List.noConfusion
  | _ :: _, [] => isFalse List.noConfusion
  | x :: xs, y :: ys =>
      match Json.decEq x y, Json.decEqList xs ys with
      | isTrue h1, isTrue h2 => isTrue (by rw [h1, h2])
      | isFalse h1, _ => isFalse (fun hh => h1 (by injection hh))
      | _, isFalse h2 => isFalse (fun hh => h2 (by injection hh))

/-- Decidable equality of JSON object field lists. -/
def Json.decEqFields : (a b : List (String × Json)) → Decidable (a = b)
  | [], [] => isTrue rfl
  | [], _ :: _ => isFalse List.noConfusion
  | _ :: _, [] => isFalse List.noConfusion
  | (s, x) :: xs, (t, y) :: ys =>
      match String.decEq s t, Json.decEq x y, Json.decEqFields xs ys with
      | isTrue h0, isTrue h1, isTrue h2 => isTrue (by rw [h0, h1, h2])
      | isFalse h0, _, _ =>
          isFalse (fun hh => h0 (by injection hh with h3 h4; injection h3))
      | _, isFalse h1, _ =>
          isFalse (fun hh => h1 (by injection hh with h3 h4; injection h3))
      | _, _, isFalse h2 => isFalse (fun hh => h2 (by injection hh))

end

instance : DecidableEq Json := Json.decEq

/-- JavaScript truthiness of a JSON value. -/
def truthyJson : Json → Bool
  | .null => false
  | .bool b => b
  | .num n => n != 0
  | .str s => s != ""
  | .arr _ => true
  | .obj _ => true

/-- Truthiness of a possibly-undefined JavaScript value (`none` is
`undefined`). -/
def truthyOpt : Option Json → Bool
  | none => false
  | some j => truthyJson j

/-- Truthiness of an optional string-valued configuration field
(`undefined` and the empty string are falsy). -/
def truthyOptStr : Option String → Bool
  | none => false
  | some s => s != ""

/-- Field lookup in a JSON object; `JSON.parse` keeps the last duplicate
key, hence `getLast?`. -/
def objGet (fields : List (String × Json)) (k : String) : Option Json :=
  ((fields.filter (fun p => p.1 = k)).getLast?).map (fun p => p.2)

/-- JavaScript property access `j.k`: throws a `TypeError` when `j` is
`null`, yields the field of an object, and `undefined` (`none`)
otherwise. -/
def getField (j : Json) (k : String) : Except String (Option Json) :=
  match j with
  | .null => .error ("TypeError: cannot read properties of null (reading " ++ k ++ ")")
  | .obj fields => .ok (objGet fields k)
  | _ => .ok none

/-- JavaScript string interpolation of a value, as in template literals.
Exact on `null`, booleans, integers and strings (the only shapes any
handler message interpolates); the array/object cases approximate the
JavaScript `toString` output. -/
def jsDisplay : Json → String
  | .null => "null"
  | .bool b => cond b "true" "false"
  | .num n => toString n
  | .str s => s
  | .arr _ => ""
  | .obj _ => "[object Object]"

/-- `Array.prototype.filter(Boolean)` over a list of possibly-undefined
values: keep exactly the truthy ones. -/
def jsFilterTruthy (vs : List (Option Json)) : List Json :=
  vs.filterMap (fun v => if truthyOpt v then v else none)

/-- The inline model-list normalizer of `buildModelProviderMap`
(src/worker.js lines 109-116), applied to the parsed body `data`:
(1) a bare array extracts `m.id || m.name` from each element and filters
falsy values; otherwise (2) when `data.data` is a truthy array it extracts
`m.id`; otherwise (3) when `data.models` is a truthy array it extracts
`m.name`; otherwise the list is empty.  Property access on `null`
(either `data` itself in cases (2)-(3) or an element `m`) throws. -/
def normalizeModelList (data : Json) : Except String (List Json) :=
  match data with
  | .arr xs => do
      let vs ← xs.mapM (fun m => do
        let id ← getField m "id"
        if truthyOpt id then pure id else getField m "name")
      pure (jsFilterTruthy vs)
  | _ => do
      let d ← getField data "data"
      match d with
      | some (.arr xs) => do
          let vs ← xs.mapM (fun m => getField m "id")
          pure (jsFilterTruthy vs)
      | _ => do
          let ms ← getField data "models"
          match ms with
          | some (.arr xs) => do
              let vs ← xs.mapM (fun m => getField m "name")
              pure (jsFilterTruthy vs)
          | _ => pure []

/-- The hardcoded worker API key (src/worker.js line 17). -/
def WORKER_API_KEY : String := "1"

/-- The value stored for a model id in `MODEL_PROVIDER_MAP`
(src/worker.js line 91/119): `{ providerId, upstreamHost, chatPath }`. -/
structure ProviderInfo where
  providerId : String
  upstreamHost : String
  chatPath : String
deriving DecidableEq, Repr

/-- The model-to-provider map, as a JavaScript `Map`: an association list
with unique keys in insertion order (`Map.set` on an existing key updates
the value in place). -/
abbrev RoutingTable := List (Json × ProviderInfo)

/-- Insertion as `Map.set`: overwrite the value at an existing key in
place (keeping its insertion position), otherwise append a fresh
entry. -/
def mapSet (m : RoutingTable) (k : Json) (v : ProviderInfo) : RoutingTable :=
  match m with
  | [] => [(k, v)]
  | e :: rest => if e.1 = k then (k, v) :: rest else e :: mapSet rest k v

/-- Lookup as `Map.get`: the value at a key, `undefined` (`none`) when
absent. -/
def mapGet (m : RoutingTable) (k : Json) : Option ProviderInfo :=
  match m with
  | [] => none
  | e :: rest => if e.1 = k then some e.2 else mapGet rest k

/-- Key membership, as `Map.has`. -/
def mapHasKey (m : RoutingTable) (k : Json) : Bool :=
  (mapGet m k).isSome

/-- One entry of `PROVIDER_CONFIG` (src/worker.js lines 20-69): a provider
descriptor with either a static `models` list or a `modelsPath` for
dynamic discovery. -/
structure Provider where
  providerId : String
  name : String
  upstreamHost : String
  models : Option (List String) := none
  modelsPath : Option String := none
  chatPath : String
deriving DecidableEq, Repr

/-- The static provider registry `PROVIDER_CONFIG` of src/worker.js, in
declaration order. -/
def PROVIDER_CONFIG : List Provider :=
  [ { providerId := "api.airforce", name := "Airforce API",
      upstreamHost := "api.airforce",
      models := some ["gpt-5-mini", "gpt-4o-mini"],
      chatPath := "/v1/chat/completions" },
    { providerId := "anondrop.net", name := "AnonDrop",
      upstreamHost := "anondrop.net", modelsPath := some "/v1/models",
      chatPath := "/v1/chat/completions" },
    { providerId := "gpt4free.pro", name := "GPT4Free.pro",
      upstreamHost := "gpt4free.pro", modelsPath := some "/v1/models",
      chatPath := "/v1/chat/completions" },
    { providerId := "gemini", name := "Google Gemini (via g4f)",
      upstreamHost := "g4f.dev", modelsPath := some "/api/gemini/models",
      chatPath := "/api/gemini/chat/completions" },
    { providerId := "grok", name := "Grok (via g4f)",
      upstreamHost := "g4f.dev", modelsPath := some "/api/grok/models",
      chatPath := "/api/grok/chat/completions" },
    { providerId := "pollinations.ai", name := "Pollinations.ai (via g4f)",
      upstreamHost := "g4f.dev", modelsPath := some "/api/pollinations.ai/models",
      chatPath := "/api/pollinations.ai/chat/completions" },
    { providerId := "ollama", name := "Ollama (via g4f)",
      upstreamHost := "g4f.dev", modelsPath := some "/api/ollama/models",
      chatPath := "/api/ollama/chat/completions" },
    { providerId := "huggingface", name := "HuggingFace (via g4f)",
      upstreamHost := "g4f.dev",
      modelsPath := some "/api/huggingface/models?inference=warm&&expand[]=inferenceProviderMapping",
      chatPath := "/api/huggingface/chat/completions" } ]

/-- A settled discovery `fetch` response: `ok`/`status` as on a JavaScript
`Response`, and the outcome of `response.json()` (which can itself
throw). -/
structure FetchResp where
  ok : Bool
  status : Nat
  jsonBody : Except String Json
deriving Repr

/-- The per-provider environment: the settled outcome of the discovery
GET for each provider (`Except.error` is a thrown network error). -/
abbrev DiscoveryEnv := Provider → Except String FetchResp

/-- The body of the dynamic-discovery branch (src/worker.js lines 98-116)
up to and including normalization: a thrown network error, a non-`ok`
status (which the code turns into a thrown `Error`), a `response.json()`
failure, or a thrown normalization `TypeError` all surface as
`Except.error`. -/
def providerFetchModels (r : Except String FetchResp) : Except String (List Json) :=
  match r with
  | .error e => .error e
  | .ok resp =>
      if !resp.ok then .error ("上游服务返回状态 " ++ toString resp.status)
      else
        match resp.jsonBody with
        | .error e => .error e
        | .ok data => normalizeModelList data

/-- Whether a provider takes the static branch (src/worker.js line 89):
`config.models && !config.modelsPath` under JavaScript truthiness. -/
def isStaticProvider (p : Provider) : Bool :=
  p.models.isSome && !(truthyOptStr p.modelsPath)

/-- The model ids a provider registers into the map: its static list when
it has one and no dynamic path; the normalized discovery result when it
has a dynamic path, with any thrown error caught (src/worker.js lines
122-124) so that the provider contributes zero models; nothing
otherwise. -/
def providerContribution (fetch : DiscoveryEnv) (p : Provider) : List Json :=
  if isStaticProvider p then ((p.models).getD []).map Json.str
  else if truthyOptStr p.modelsPath then
    match providerFetchModels (fetch p) with
    | .ok ids => ids
    | .error _ => []
  else []

/-- The providers for which the builder issues a discovery GET: exactly
those whose `modelsPath` is truthy. -/
def discoveryCallProviders (providers : List Provider) : List Provider :=
  providers.filter (fun p => truthyOptStr p.modelsPath)

/-- The `ProviderInfo` stored for every model a provider registers
(src/worker.js lines 91 and 119). -/
def entryOf (p : Provider) : ProviderInfo :=
  ⟨p.providerId, p.upstreamHost, p.chatPath⟩

/-- Register a provider's model ids into the map (`models.forEach` over
`map.set`). -/
def registerModels (m : RoutingTable) (p : Provider) (ids : List Json) : RoutingTable :=
  ids.foldl (fun m id => mapSet m id (entryOf p)) m

/-- Model of `buildModelProviderMap` (src/worker.js lines 82-130) over a given
provider registry and discovery environment.  The build waits for every
per-provider task to settle (`Promise.allSettled`) and merges each
settled contribution into one map; per-provider failures are absorbed as
empty contributions.  Registration order is modelled as registry order
(static contributions are registered synchronously in that order; a
dynamic contribution settles later and, on a colliding model id,
overwrites by `Map.set` just as in the source). -/
def buildModelProviderMap (providers : List Provider) (fetch : DiscoveryEnv) : RoutingTable :=
  providers.foldl (fun m p => registerModels m p (providerContribution fetch p)) []

/-- An inbound HTTP request as the worker observes it: method, URL path,
header list, and the outcome of `await request.json()` (`none` when the
body is not valid JSON, in which case `request.json()` throws). -/
structure InboundRequest where
  method : String
  path : String
  headers : List (String × String)
  bodyJson : Option Json
deriving DecidableEq, Repr

/-- Lower-case an ASCII letter (header names are ASCII). -/
def lcChar (c : Char) : Char :=
  if 65 ≤ c.toNat ∧ c.toNat ≤ 90 then Char.ofNat (c.toNat + 32) else c

/-- Lower-case an ASCII string, for case-insensitive header names. -/
def lowerAscii (s : String) : String := ⟨s.data.map lcChar⟩

/-- Header lookup as `Headers.get`: case-insensitive lookup of a header
value, `null` (`none`) when absent. -/
def headersGet (hs : List (String × String)) (name : String) : Option String :=
  ((hs.filter (fun p => lowerAscii p.1 = lowerAscii name)).head?).map (fun p => p.2)

/-- A response body: generated text, a generated JSON document, or a
pass-through of an upstream body stream (identified by an opaque
handle). -/
inductive Body where
  | text (s : String) : Body
  | jsonBody (j : Json) : Body
  | stream (handle : Nat) : Body
deriving DecidableEq, Repr

/-- An HTTP response produced by the worker. -/
structure Response where
  status : Nat
  statusText : String := ""
  headers : List (String × String) := []
  body : Body
deriving DecidableEq, Repr

/-- The upstream chat request the dispatcher constructs (src/worker.js
lines 210-215); the body is the re-serialized parsed request body. -/
structure UpstreamRequest where
  method : String
  url : String
  headers : List (String × String)
  body : Json
deriving DecidableEq, Repr

/-- An upstream chat response: status, reason, the value of
`headers.get(Content-Type)`, and an opaque body-stream handle. -/
structure UpstreamResponse where
  status : Nat
  statusText : String
  contentType : Option String
  body : Nat
deriving DecidableEq, Repr

/-- The upstream environment: the outcome of `fetch(upstreamRequest)`,
`Except.error` being a thrown network-level error. -/
abbrev UpstreamEnv := UpstreamRequest → Except String UpstreamResponse

/-- The fixed outbound header set the dispatcher sends upstream
(src/worker.js lines 203-208); no inbound header is consulted. -/
def fixedOutboundHeaders : List (String × String) :=
  [ ("Content-Type", "application/json"),
    ("Accept", "*/*"),
    ("Origin", "https://g4f.dev"),
    ("Referer", "https://g4f.dev/"),
    ("User-Agent", "Mozilla/5.0 (Windows NT 10.0; Win64; x64) AppleWebKit/537.36 (KHTML, like Gecko) Chrome/142.0.0.0 Safari/537.36") ]

/-- The upstream request built for a routed model (src/worker.js lines
200-215). -/
def mkUpstreamRequest (info : ProviderInfo) (requestBody : Json) : UpstreamRequest :=
  ⟨"POST", "https://" ++ info.upstreamHost ++ info.chatPath, fixedOutboundHeaders, requestBody⟩

/-- Relay content type (src/worker.js line 223), the JavaScript
expression being the upstream content type or-else the default; with
JavaScript `||`, a missing or empty value
falls back to the default. -/
def contentTypeOrDefault (ct : Option String) : String :=
  match ct with
  | none => "text/event-stream"
  | some s => if s = "" then "text/event-stream" else s

/-- The headers of the relayed chat response (src/worker.js lines
222-226). -/
def relayHeaders (ct : Option String) : List (String × String) :=
  [ ("Content-Type", contentTypeOrDefault ct),
    ("Access-Control-Allow-Origin", "*"),
    ("Cache-Control", "no-cache") ]

/-- The 502 body text naming the model and the underlying error
(src/worker.js line 229). -/
def badGatewayBody (modelId : Json) (errMsg : String) : String :=
  "上游 API 请求失败 (模型 " ++ jsDisplay modelId ++ "): " ++ errMsg

/-- The 404 body text naming the unresolved model id (src/worker.js
line 197). -/
def modelNotFoundBody (modelId : Json) : String :=
  "找不到模型: " ++ jsDisplay modelId ++ "。请在 /v1/models 检查可用模型列表。"

/-- Decidable equality for settled `Except` outcomes. -/
instance {ε α : Type} [DecidableEq ε] [DecidableEq α] : DecidableEq (Except ε α)
  | .error a, .error b =>
      if h : a = b then isTrue (by rw [h]) else isFalse (fun hh => h (by injection hh))
  | .error _, .ok _ => isFalse Except.noConfusion
  | .ok _, .error _ => isFalse Except.noConfusion
  | .ok a, .ok b =>
      if h : a = b then isTrue (by rw [h]) else isFalse (fun hh => h (by injection hh))

/-- The observable outcome of a dispatch: the handler result
(`Except.error` is an exception escaping the handler uncaught) together
with the list of upstream chat fetches it issued. -/
structure DispatchOutcome where
  result : Except String Response
  upstreamCalls : List UpstreamRequest
deriving DecidableEq, Repr

/-- Model of `handleChatCompletionRequest` (src/worker.js lines 177-231).
Checks, in order: non-POST method (405), `Authorization` header not
exactly `Bearer` plus the configured key (401), then `await
request.json()` — a body that is not valid JSON throws here and the
exception leaves the handler uncaught.  A parsed body whose `model`
property is falsy yields 400 (property access throws on a `null` body);
a model id absent from the map yields 404.  Otherwise the upstream
request is built and fetched: a settled upstream response is relayed
with its status, reason and a fixed relay header set over the upstream
body stream, and a thrown fetch error yields 502. -/
def handleChatCompletionRequest (req : InboundRequest) (table : Option RoutingTable)
    (upstream : UpstreamEnv) : DispatchOutcome :=
  if req.method ≠ "POST" then
    ⟨.ok { status := 405, body := .text "方法不允许" }, []⟩
  else if headersGet req.headers "Authorization" ≠ some ("Bearer " ++ WORKER_API_KEY) then
    ⟨.ok { status := 401, body := .text "未授权：无效的 API 密钥。" }, []⟩
  else
    match req.bodyJson with
    | none => ⟨.error "SyntaxError: unexpected token in JSON", []⟩
    | some requestBody =>
        match getField requestBody "model" with
        | .error e => ⟨.error e, []⟩
        | .ok mv =>
            match mv with
            | none => ⟨.ok { status := 400, body := .text "请求体中缺少 model 字段。" }, []⟩
            | some modelId =>
                if ¬ truthyJson modelId then
                  ⟨.ok { status := 400, body := .text "请求体中缺少 model 字段。" }, []⟩
                else
                  match table with
                  | none => ⟨.error "TypeError: cannot read properties of null (reading get)", []⟩
                  | some tbl =>
                      match mapGet tbl modelId with
                      | none =>
                          ⟨.ok { status := 404, body := .text (modelNotFoundBody modelId) }, []⟩
                      | some info =>
                          let ureq := mkUpstreamRequest info requestBody
                          match upstream ureq with
                          | .ok ur =>
                              ⟨.ok { status := ur.status, statusText := ur.statusText,
                                     headers := relayHeaders ur.contentType,
                                     body := .stream ur.body }, [ureq]⟩
                          | .error e =>
                              ⟨.ok { status := 502, body := .text (badGatewayBody modelId e) },
                               [ureq]⟩

/-- The JSON document entry for one routing-table entry in the
`/v1/models` response (src/worker.js lines 241-245). -/
def modelEntryJson (e : Json × ProviderInfo) : Json :=
  .obj [("id", e.1), ("object", .str "model"), ("owned_by", .str e.2.providerId)]

/-- Model of `handleModelsRequest` (src/worker.js lines 236-250): 503 when the map
reference is still `null`, otherwise a 200 JSON listing of every map
entry. -/
def handleModelsRequest (table : Option RoutingTable) : Response :=
  match table with
  | none => { status := 503, body := .text "模型目录尚未准备就绪，请稍后再试。" }
  | some tbl =>
      { status := 200, headers := [("Content-Type", "application/json")],
        body := .jsonBody (.obj
          [("object", .str "list"), ("data", .arr (tbl.map modelEntryJson))]) }

/-- Model of `handleGuiRequest` (src/worker.js lines 257-475): serves the
interactive HTML console.  The page markup is outside the verified core
(the spec places the UI out of scope), so the body is represented by the
request path only. -/
def handleGuiRequest (req : InboundRequest) : Response :=
  { status := 200, headers := [("Content-Type", "text/html; charset=utf-8")],
    body := .text req.path }

/-- The exported `fetch` entry point (src/worker.js lines 137-167) as a
state transformer on the process-wide `MODEL_PROVIDER_MAP` reference:
when the reference is `null` the request awaits a catalog build and the
reference is assigned before any routing; then the URL path selects the
handler.  Returns the updated reference and the response (`Except.error`
is an exception escaping `fetch` uncaught). -/
def workerFetch (state : Option RoutingTable) (providers : List Provider)
    (fetch : DiscoveryEnv) (upstream : UpstreamEnv) (req : InboundRequest) :
    Option RoutingTable × Except String Response :=
  let state' :=
    match state with
    | none => some (buildModelProviderMap providers fetch)
    | some t => some t
  let resp :=
    if req.path = "/v1/models" then .ok (handleModelsRequest state')
    else if req.path = "/v1/chat/completions" then
      (handleChatCompletionRequest req state' upstream).result
    else if req.path = "/" then .ok (handleGuiRequest req)
    else .ok { status := 404, body := .text "🚫 404 未找到。请访问根路径 `/` 以获取交互式界面。" }
  (state', resp)

/-!
Cooperative-concurrency model of the cold-start window.  A request task
executing the `fetch` entry runs synchronously from the
`MODEL_PROVIDER_MAP === null` check into `buildModelProviderMap` until
the first suspension (awaiting the provider discovery fetches); the
assignment `MODEL_PROVIDER_MAP = map` happens only when that build
settles.  Each suspension point is an atomic step boundary at which the
event loop may run another request task.
-/

/-- Program counter of one inbound request task: about to run the
null-check, suspended inside its own catalog build, about to route with
the map built, or finished. -/
inductive TaskPC where
  | start : TaskPC
  | building : TaskPC
  | routing : TaskPC
  | finished : TaskPC
deriving DecidableEq, Repr

/-- Process state during a cold start with two inbound request tasks:
the shared `MODEL_PROVIDER_MAP` reference, both program counters, and a
count of how many `buildModelProviderMap` runs have been entered. -/
structure GatewayState where
  map : Option RoutingTable
  pcA : TaskPC
  pcB : TaskPC
  buildsStarted : Nat
deriving DecidableEq, Repr

/-- One atomic step of the selected task (`true` selects task A):
from `start`, the task checks the shared reference — if it is still
`null` the task enters a catalog build and suspends, otherwise it
proceeds to routing; from `building`, its build settles and assigns the
shared reference; from `routing`, it produces its response. -/
def stepTask (tbl : RoutingTable) (s : GatewayState) (a : Bool) : GatewayState :=
  let pc := if a then s.pcA else s.pcB
  let setPC := fun (s : GatewayState) (pc : TaskPC) =>
    if a then { s with pcA := pc } else { s with pcB := pc }
  match pc with
  | .start =>
      match s.map with
      | none => { setPC s .building with buildsStarted := s.buildsStarted + 1 }
      | some _ => setPC s .routing
  | .building => { setPC s .routing with map := some tbl }
  | .routing => setPC s .finished
  | .finished => s

/-- Run the event loop under a given interleaving of the two tasks. -/
def runSchedule (tbl : RoutingTable) (sched : List Bool) (s : GatewayState) : GatewayState :=
  sched.foldl (stepTask tbl) s

/-- Cold-start initial state: map unbuilt, both requests pending. -/
def initGatewayState : GatewayState :=
  ⟨none, .start, .start, 0⟩

/-- Weight of a task in the build-count invariant: a task contributes a
unit once it has passed the null-check. -/
def pcWeight : TaskPC → Nat
  | .start => 0
  | _ => 1

/-- Example fixtures used to instantiate the theorems below. -/
def exStaticP : Provider :=
  { providerId := "p1", name := "P1", upstreamHost := "h1",
    models := some ["m"], chatPath := "/c1" }

/-- A dynamic-discovery provider fixture. -/
def exDynP : Provider :=
  { providerId := "p2", name := "P2", upstreamHost := "h2",
    modelsPath := some "/v1/models", chatPath := "/c2" }

/-- A discovery environment in which every fetch throws. -/
def exFailEnv : DiscoveryEnv := fun _ => .error "network down"

/-- A discovery environment in which `exDynP` successfully lists the same
model id that `exStaticP` declares statically. -/
def exCollideEnv : DiscoveryEnv := fun p =>
  if p.providerId = "p2" then
    .ok ⟨true, 200, .ok (.obj [("data", .arr [.obj [("id", .str "m")]])])⟩
  else .error "network down"

/-- An upstream environment in which every chat fetch throws. -/
def exUpstreamThrow : UpstreamEnv := fun _ => .error "connection reset"

/-- An upstream environment returning a settled streaming response. -/
def exUpstreamOk : UpstreamEnv := fun _ =>
  .ok { status := 200, statusText := "OK", contentType := none, body := 7 }

/-- A chat body requesting model `m`. -/
def exBody : Json := .obj [("model", .str "m"), ("messages", .arr [])]

/-- A routing table mapping `m` to a provider `p1`. -/
def exTable : RoutingTable := [(.str "m", ⟨"p1", "h1", "/c1"⟩)]

/-- An authorized chat request carrying an extra inbound header. -/
def exAuthedReq : InboundRequest :=
  { method := "POST", path := "/v1/chat/completions",
    headers := [("Authorization", "Bearer 1"), ("X-Extra", "yes")],
    bodyJson := some exBody }

/-- An authorized chat request with the same body but different inbound
headers (lower-case header name, no extra header). -/
def exAuthedReq2 : InboundRequest :=
  { method := "POST", path := "/v1/chat/completions",
    headers := [("authorization", "Bearer 1")],
    bodyJson := some exBody }

/-- An authorized POST whose body is not valid JSON. -/
def exBadJsonReq : InboundRequest :=
  { method := "POST", path := "/v1/chat/completions",
    headers := [("Authorization", "Bearer 1")], bodyJson := none }

/-! Lemmas about `mapSet`, `mapGet` and `registerModels`. -/

@[simp]
theorem mapGet_mapSet_self (m : RoutingTable) (k : Json) (v : ProviderInfo) :
    mapGet (mapSet m k v) k = some v := by
  induction m with
  | nil => simp [mapSet, mapGet]
  | cons e rest ih =>
      by_cases h : e.1 = k
      · simp [mapSet, mapGet, h]
      · simp [mapSet, mapGet, h, ih]

theorem mapGet_mapSet_ne (m : RoutingTable) (k k' : Json) (v : ProviderInfo)
    (h : k' ≠ k) : mapGet (mapSet m k v) k' = mapGet m k' := by
  have hk : ¬ (k = k') := fun hh => h hh.symm
  induction m with
  | nil => simp [mapSet, mapGet, hk]
  | cons e rest ih =>
      by_cases he : e.1 = k
      · simp [mapSet, mapGet, he, hk]
      · simp [mapSet, mapGet, he, ih]

theorem mem_mapSet (m : RoutingTable) (k : Json) (v : ProviderInfo)
    (e : Json × ProviderInfo) (h : e ∈ mapSet m k v) : e ∈ m ∨ e = (k, v) := by
  induction m with
  | nil => simp [mapSet] at h; right; exact h
  | cons hd rest ih =>
      by_cases hh : hd.1 = k
      · simp only [mapSet, hh, if_pos] at h
        rcases List.mem_cons.mp h with h1 | h1
        · right; exact h1
        · left; exact List.mem_cons_of_mem _ h1
      · simp only [mapSet, hh, if_neg, not_false_iff] at h
        rcases List.mem_cons.mp h with h1 | h1
        · left; exact h1 ▸ List.mem_cons_self _ _
        · rcases ih h1 with h2 | h2
          · left; exact List.mem_cons_of_mem _ h2
          · right; exact h2

theorem registerModels_cons (m : RoutingTable) (p : Provider) (id : Json) (ids : List Json) :
    registerModels m p (id :: ids) = registerModels (mapSet m id (entryOf p)) p ids := rfl

theorem mapGet_registerModels_not_mem (m : RoutingTable) (p : Provider) (ids : List Json)
    (id : Json) (h : id ∉ ids) : mapGet (registerModels m p ids) id = mapGet m id := by
  induction ids generalizing m with
  | nil => rfl
  | cons x rest ih =>
      rw [registerModels_cons, ih _ (fun hr => h (List.mem_cons_of_mem _ hr)),
        mapGet_mapSet_ne _ _ _ _ (fun hx => h (by rw [hx]; exact List.mem_cons_self _ _))]

theorem mapGet_registerModels_mem (m : RoutingTable) (p : Provider) (ids : List Json)
    (id : Json) (h : id ∈ ids) : mapGet (registerModels m p ids) id = some (entryOf p) := by
  induction ids generalizing m with
  | nil => cases h
  | cons x rest ih =>
      by_cases hr : id ∈ rest
      · rw [registerModels_cons, ih _ hr]
      · have hx : id = x := by
          rcases List.mem_cons.mp h with h1 | h1
          · exact h1
          · exact absurd h1 hr
        rw [registerModels_cons, mapGet_registerModels_not_mem _ _ _ _ hr, hx,
          mapGet_mapSet_self]

theorem isSome_mapGet_registerModels (m : RoutingTable) (p : Provider) (ids : List Json)
    (id : Json) (h : (mapGet m id).isSome = true) :
    (mapGet (registerModels m p ids) id).isSome = true := by
  induction ids generalizing m with
  | nil => exact h
  | cons x rest ih =>
      rw [registerModels_cons]
      apply ih
      by_cases hx : id = x
      · rw [hx, mapGet_mapSet_self]; rfl
      · rw [mapGet_mapSet_ne _ _ _ _ hx]; exact h

theorem mem_registerModels (m : RoutingTable) (p : Provider) (ids : List Json)
    (e : Json × ProviderInfo) (h : e ∈ registerModels m p ids) :
    e ∈ m ∨ (e.1 ∈ ids ∧ e.2 = entryOf p) := by
  induction ids generalizing m with
  | nil => left; exact h
  | cons x rest ih =>
      rw [registerModels_cons] at h
      rcases ih _ h with h1 | h1
      · rcases mem_mapSet _ _ _ _ h1 with h2 | h2
        · left; exact h2
        · right
          refine ⟨?_, ?_⟩
          · rw [h2]; exact List.mem_cons_self _ _
          · rw [h2]
      · right; exact ⟨List.mem_cons_of_mem _ h1.1, h1.2⟩

/-! Lemmas about `buildModelProviderMap`. -/

theorem buildModelProviderMap_concat (ps : List Provider) (p : Provider) (f : DiscoveryEnv) :
    buildModelProviderMap (ps ++ [p]) f =
      registerModels (buildModelProviderMap ps f) p (providerContribution f p) := by
  simp [buildModelProviderMap, List.foldl_append]

theorem isSome_mapGet_build_of_contribution (providers : List Provider) (f : DiscoveryEnv)
    (q : Provider) (hq : q ∈ providers) (id : Json) (hid : id ∈ providerContribution f q) :
    (mapGet (buildModelProviderMap providers f) id).isSome = true := by
  induction providers using List.reverseRecOn with
  | nil => cases hq
  | append_singleton ps p ih =>
      rw [buildModelProviderMap_concat]
      by_cases hp : id ∈ providerContribution f p
      · rw [mapGet_registerModels_mem _ _ _ _ hp]; rfl
      · apply isSome_mapGet_registerModels
        rcases List.mem_append.mp hq with h1 | h1
        · exact ih h1
        · have : q = p := by simpa using h1
          exact absurd (this ▸ hid) hp

theorem exists_provider_of_mem_build (providers : List Provider) (f : DiscoveryEnv)
    (e : Json × ProviderInfo) (h : e ∈ buildModelProviderMap providers f) :
    ∃ p, p ∈ providers ∧ e.2 = entryOf p ∧ e.1 ∈ providerContribution f p := by
  induction providers using List.reverseRecOn with
  | nil => cases h
  | append_singleton ps p ih =>
      rw [buildModelProviderMap_concat] at h
      rcases mem_registerModels _ _ _ _ h with h1 | h1
      · rcases ih h1 with ⟨q, hq, he⟩
        exact ⟨q, List.mem_append_left _ hq, he⟩
      · exact ⟨p, List.mem_append_right _ (List.mem_singleton_self _), h1.2, h1.1⟩

theorem mapGet_build_of_unique (providers : List Provider) (f : DiscoveryEnv)
    (id : Json) (v : ProviderInfo)
    (hex : ∃ p, p ∈ providers ∧ id ∈ providerContribution f p ∧ entryOf p = v)
    (huni : ∀ q, q ∈ providers → id ∈ providerContribution f q → entryOf q = v) :
    mapGet (buildModelProviderMap providers f) id = some v := by
  induction providers using List.reverseRecOn with
  | nil => rcases hex with ⟨p, hp, _⟩; cases hp
  | append_singleton ps p ih =>
      rw [buildModelProviderMap_concat]
      by_cases hp : id ∈ providerContribution f p
      · rw [mapGet_registerModels_mem _ _ _ _ hp]
        rw [huni p (List.mem_append_right _ (List.mem_singleton_self _)) hp]
      · rw [mapGet_registerModels_not_mem _ _ _ _ hp]
        apply ih
        · rcases hex with ⟨q, hq, hqc, hqv⟩
          rcases List.mem_append.mp hq with h1 | h1
          · exact ⟨q, h1, hqc, hqv⟩
          · have : q = p := by simpa using h1
            exact absurd (this ▸ hqc) hp
        · exact fun q hq hqc => huni q (List.mem_append_left _ hq) hqc

/-! Lemmas about the cold-start interleaving model. -/

theorem pcWeight_le_one (pc : TaskPC) : pcWeight pc ≤ 1 := by
  cases pc <;> simp [pcWeight]

theorem stepTask_invariant (tbl : RoutingTable) (s : GatewayState) (a : Bool)
    (h : s.buildsStarted ≤ pcWeight s.pcA + pcWeight s.pcB) :
    (stepTask tbl s a).buildsStarted ≤
      pcWeight (stepTask tbl s a).pcA + pcWeight (stepTask tbl s a).pcB := by
  cases a <;> cases hA : s.pcA <;> cases hB : s.pcB <;> cases hm : s.map <;>
    simp_all [stepTask, pcWeight] <;> omega

theorem runSchedule_invariant (tbl : RoutingTable) (sched : List Bool) (s : GatewayState)
    (h : s.buildsStarted ≤ pcWeight s.pcA + pcWeight s.pcB) :
    (runSchedule tbl sched s).buildsStarted ≤
      pcWeight (runSchedule tbl sched s).pcA + pcWeight (runSchedule tbl sched s).pcB := by
  induction sched generalizing s with
  | nil => exact h
  | cons a rest ih => exact ih _ (stepTask_invariant tbl s a h)



/-!
Claim theorems.
-/

/-- C4 counterexample: the claim says the normalizer applied to `null`
yields the empty list without throwing; in the source, evaluating
`data.data` on a `null` body throws a `TypeError`, so the normalizer does
not return the empty list there. -/
theorem normalizer_null_throws :
    normalizeModelList Json.null =
      .error "TypeError: cannot read properties of null (reading data)" ∧
    normalizeModelList Json.null ≠ .ok [] :=
  ⟨rfl, by decide⟩

/-- C4 (amended): the normalizer tries, in priority order, (1) a bare
array of objects extracting `id` falling back to `name`, (2) an object
with a `data` array extracting `id`, (3) an object with a `models` array
extracting `name`; entries lacking the expected field are dropped
silently, and any unrecognized non-null shape — including `{}`, booleans,
numbers and plain strings — yields the empty list without throwing.
Applied to `null`, however, the normalizer throws a `TypeError`, which
only the catalog builder's catch absorbs into a zero-model
contribution. -/
theorem normalizer_shape_handling :
    normalizeModelList (.arr [.obj [("id", .str "a")], .obj [("name", .str "b")]]) =
      .ok [.str "a", .str "b"] ∧
    normalizeModelList (.obj [("data", .arr [.obj [("id", .str "c")]])]) = .ok [.str "c"] ∧
    normalizeModelList (.obj [("models", .arr [.obj [("name", .str "d")]])]) = .ok [.str "d"] ∧
    normalizeModelList (.obj [("data", .arr [.obj [("id", .str "c")]]),
      ("models", .arr [.obj [("name", .str "d")]])]) = .ok [.str "c"] ∧
    normalizeModelList (.arr [.obj [("id", .str "a")], .obj [("foo", .str "x")]]) =
      .ok [.str "a"] ∧
    normalizeModelList (.obj [("data", .arr [.obj [("name", .str "z")]])]) = .ok [] ∧
    normalizeModelList (.obj []) = .ok [] ∧
    (∀ b, normalizeModelList (.bool b) = .ok []) ∧
    (∀ n, normalizeModelList (.num n) = .ok []) ∧
    (∀ s, normalizeModelList (.str s) = .ok []) ∧
    normalizeModelList .null =
      .error "TypeError: cannot read properties of null (reading data)" ∧
    providerContribution (fun _ => .ok ⟨true, 200, .ok .null⟩) exDynP = [] := by
  refine ⟨rfl, rfl, rfl, rfl, rfl, rfl, rfl, ?_, ?_, ?_, rfl, rfl⟩ <;> intro x <;> rfl

/-- C5: the model-catalog handler returns 503 when the routing table has
not been built; otherwise it returns a 200 JSON document
`{object: list, data}` whose `data` length equals the table size and
whose entries carry each model id, `object: model`, and the owning
provider's id as `owned_by`. -/
theorem models_listing_projection :
    (handleModelsRequest none).status = 503 ∧
    ∀ tbl : RoutingTable,
      (handleModelsRequest (some tbl)).status = 200 ∧
      ∃ data : List Json,
        (handleModelsRequest (some tbl)).body =
          .jsonBody (.obj [("object", .str "list"), ("data", .arr data)]) ∧
        data.length = tbl.length ∧
        List.Forall₂ (fun (e : Json × ProviderInfo) (d : Json) =>
          d = .obj [("id", e.1), ("object", .str "model"),
                    ("owned_by", .str e.2.providerId)]) tbl data := by
  refine ⟨rfl, fun tbl => ⟨rfl, tbl.map modelEntryJson, rfl, by simp, ?_⟩⟩
  rw [List.forall₂_map_right_iff]
  exact List.forall₂_same.mpr (fun e he => rfl)

/-- C10: through the public fetch entry point the 503 branch of the
catalog handler is unreachable: a request that finds the table reference
null first awaits a catalog build, and the build always assigns a
non-null (possibly empty) table, so every processed `/v1/models` request
returns 200. -/
theorem models_route_never_503 (st : Option RoutingTable) (providers : List Provider)
    (f : DiscoveryEnv) (u : UpstreamEnv) (req : InboundRequest)
    (hpath : req.path = "/v1/models") :
    (workerFetch st providers f u req).1.isSome = true ∧
    ∃ r, (workerFetch st providers f u req).2 = .ok r ∧ r.status = 200 := by
  cases st with
  | none =>
      refine ⟨rfl, handleModelsRequest (some (buildModelProviderMap providers f)), ?_, rfl⟩
      simp [workerFetch, hpath]
  | some t =>
      refine ⟨rfl, handleModelsRequest (some t), ?_, rfl⟩
      simp [workerFetch, hpath]

/-- C10 witness: a concrete cold-start listing request with every
provider discovery failing still yields a 200 listing. -/
theorem models_route_never_503_witness :
    (workerFetch none PROVIDER_CONFIG exFailEnv exUpstreamThrow
      { method := "GET", path := "/v1/models", headers := [], bodyJson := none }).1.isSome
        = true ∧
    ∃ r, (workerFetch none PROVIDER_CONFIG exFailEnv exUpstreamThrow
      { method := "GET", path := "/v1/models", headers := [], bodyJson := none }).2 =
        .ok r ∧ r.status = 200 :=
  models_route_never_503 none PROVIDER_CONFIG exFailEnv exUpstreamThrow
    { method := "GET", path := "/v1/models", headers := [], bodyJson := none } rfl

/-- C1 counterexample: a POST with the valid credential whose body is not
valid JSON does not produce a 400 response — `await request.json()`
throws and the exception escapes the dispatcher uncaught, so no response
is returned at all. -/
theorem invalid_json_body_not_badrequest :
    (handleChatCompletionRequest exBadJsonReq (some []) exUpstreamThrow).result =
      .error "SyntaxError: unexpected token in JSON" ∧
    ∀ r : Response,
      (handleChatCompletionRequest exBadJsonReq (some []) exUpstreamThrow).result ≠ .ok r := by
  refine ⟨rfl, fun r h => ?_⟩
  rw [show (handleChatCompletionRequest exBadJsonReq (some []) exUpstreamThrow).result =
    .error "SyntaxError: unexpected token in JSON" from rfl] at h
  exact Except.noConfusion h

/-- C1 (amended): the dispatcher checks preconditions in order, each
producing its distinct failure before any upstream call: non-POST gives
405; then a wrong or missing Authorization header gives 401; then a body
that does not parse as JSON makes `await request.json()` throw — the
exception escapes uncaught instead of producing 400; a body that parses
but whose `model` field is absent or falsy gives 400; and a truthy model
id absent from the routing table gives 404 naming the id. -/
theorem dispatch_precondition_order (req : InboundRequest) (table : Option RoutingTable)
    (u : UpstreamEnv) :
    (req.method ≠ "POST" →
      handleChatCompletionRequest req table u =
        ⟨.ok { status := 405, body := .text "方法不允许" }, []⟩) ∧
    (req.method = "POST" →
      headersGet req.headers "Authorization" ≠ some ("Bearer " ++ WORKER_API_KEY) →
      handleChatCompletionRequest req table u =
        ⟨.ok { status := 401, body := .text "未授权：无效的 API 密钥。" }, []⟩) ∧
    (req.method = "POST" →
      headersGet req.headers "Authorization" = some ("Bearer " ++ WORKER_API_KEY) →
      req.bodyJson = none →
      handleChatCompletionRequest req table u =
        ⟨.error "SyntaxError: unexpected token in JSON", []⟩) ∧
    (∀ b mv, req.method = "POST" →
      headersGet req.headers "Authorization" = some ("Bearer " ++ WORKER_API_KEY) →
      req.bodyJson = some b → getField b "model" = .ok mv → truthyOpt mv = false →
      handleChatCompletionRequest req table u =
        ⟨.ok { status := 400, body := .text "请求体中缺少 model 字段。" }, []⟩) ∧
    (∀ b j tbl, req.method = "POST" →
      headersGet req.headers "Authorization" = some ("Bearer " ++ WORKER_API_KEY) →
      req.bodyJson = some b → getField b "model" = .ok (some j) → truthyJson j = true →
      table = some tbl → mapGet tbl j = none →
      handleChatCompletionRequest req table u =
        ⟨.ok { status := 404, body := .text (modelNotFoundBody j) }, []⟩) := by
  refine ⟨fun h1 => ?_, fun h1 h2 => ?_, fun h1 h2 h3 => ?_,
    fun b mv h1 h2 h3 h4 h5 => ?_, fun b j tbl h1 h2 h3 h4 h5 h6 h7 => ?_⟩
  · simp [handleChatCompletionRequest, h1]
  · simp [handleChatCompletionRequest, h1, h2]
  · simp [handleChatCompletionRequest, h1, h2, h3]
  · cases mv with
    | none => simp [handleChatCompletionRequest, h1, h2, h3, h4]
    | some jj =>
        simp only [truthyOpt] at h5
        simp [handleChatCompletionRequest, h1, h2, h3, h4, h5]
  · subst h6
    simp [handleChatCompletionRequest, h1, h2, h3, h4, h5, h7]

/-- C1 witness: the 405 branch at a concrete non-POST request. -/
theorem dispatch_precondition_order_witness :
    handleChatCompletionRequest
      { method := "GET", path := "/v1/chat/completions", headers := [], bodyJson := none }
      (some []) exUpstreamThrow =
      ⟨.ok { status := 405, body := .text "方法不允许" }, []⟩ :=
  (dispatch_precondition_order
    { method := "GET", path := "/v1/chat/completions", headers := [], bodyJson := none }
    (some []) exUpstreamThrow).1 (by decide)

/-- C2 counterexample: under the interleaving in which request A checks
the still-null reference and enters a build, and request B then checks
the reference before A's build settles, two concurrent builds start —
more than one catalog build per process lifetime. -/
theorem concurrent_cold_start_double_build :
    (runSchedule [] [true, false] initGatewayState).buildsStarted = 2 := rfl

/-- C2 (amended): the entry point does not guard the unbuilt-building
lifecycle: a second request arriving while the first build is in flight
re-enters the builder (see the counterexample), so a build can run once
per cold-start request rather than once per process.  What does hold:
two requests start at most two builds under every interleaving, and a
strictly sequential arrival performs exactly one build. -/
theorem build_runs_bounded_per_request (tbl : RoutingTable) (sched : List Bool) :
    (runSchedule tbl sched initGatewayState).buildsStarted ≤ 2 ∧
    (runSchedule tbl [true, true, true, false, false, false] initGatewayState).buildsStarted
      = 1 := by
  constructor
  · have h := runSchedule_invariant tbl sched initGatewayState
      (by simp [initGatewayState, pcWeight])
    have hA := pcWeight_le_one (runSchedule tbl sched initGatewayState).pcA
    have hB := pcWeight_le_one (runSchedule tbl sched initGatewayState).pcB
    omega
  · rfl

/-- C3: the catalog build never fails: it settles every per-provider
task, a dynamic provider whose discovery fetch throws or returns a
non-success status contributes zero models, and every model id
contributed by any provider — in particular by every other provider —
is a key of the resulting table. -/
theorem build_partial_failure_tolerance (providers : List Provider) (f : DiscoveryEnv)
    (p : Provider) (_hp : p ∈ providers) (hdyn : isStaticProvider p = false)
    (hfail : (∃ e, f p = .error e) ∨ ∃ r, f p = .ok r ∧ r.ok = false) :
    providerContribution f p = [] ∧
    ∀ q, q ∈ providers → ∀ id, id ∈ providerContribution f q →
      mapHasKey (buildModelProviderMap providers f) id = true := by
  constructor
  · simp only [providerContribution, hdyn, Bool.false_eq_true, if_false]
    by_cases htr : truthyOptStr p.modelsPath = true
    · rcases hfail with ⟨e, he⟩ | ⟨r, hr, hok⟩
      · simp [htr, providerFetchModels, he]
      · simp [htr, providerFetchModels, hr, hok]
    · simp [htr]
  · intro q hq id hid
    unfold mapHasKey
    exact isSome_mapGet_build_of_contribution providers f q hq id hid

/-- C3 witness: a registry with one static and one dynamic provider, the
dynamic provider's discovery throwing. -/
theorem build_partial_failure_tolerance_witness :
    providerContribution exFailEnv exDynP = [] ∧
    ∀ q, q ∈ [exStaticP, exDynP] → ∀ id, id ∈ providerContribution exFailEnv q →
      mapHasKey (buildModelProviderMap [exStaticP, exDynP] exFailEnv) id = true :=
  build_partial_failure_tolerance [exStaticP, exDynP] exFailEnv exDynP
    (by decide) (by decide) (Or.inl ⟨"network down", rfl⟩)

/-- C8 counterexample: the static provider registers `m` first, but a
later-settling dynamic provider that lists the same id overwrites the
entry (last-writer-wins `Map.set`), so the static provider's id ends up
mapped to the other provider, contradicting the claim. -/
theorem static_model_overwritten_by_later_provider :
    mapGet (buildModelProviderMap [exStaticP, exDynP] exCollideEnv) (.str "m") =
      some (entryOf exDynP) ∧
    mapGet (buildModelProviderMap [exStaticP, exDynP] exCollideEnv) (.str "m") ≠
      some (entryOf exStaticP) :=
  ⟨rfl, by decide⟩

/-- C8 (amended): every id in a static provider's list is a key of the
built table; static registration performs zero network calls (the
provider is not among the fetched ones and its contribution is the same
under every discovery environment); and the id is mapped to that provider
under the proviso — forced by the last-writer-wins collision policy —
that every provider registering the same id stores the same entry. -/
theorem static_provider_registration (providers : List Provider) (f : DiscoveryEnv)
    (p : Provider) (hp : p ∈ providers) (hstatic : isStaticProvider p = true)
    (id : String) (hid : id ∈ p.models.getD [])
    (huni : ∀ q, q ∈ providers → Json.str id ∈ providerContribution f q →
      entryOf q = entryOf p) :
    mapGet (buildModelProviderMap providers f) (.str id) = some (entryOf p) ∧
    (∀ g : DiscoveryEnv, providerContribution g p = (p.models.getD []).map Json.str) ∧
    p ∉ discoveryCallProviders providers := by
  refine ⟨?_, ?_, ?_⟩
  · apply mapGet_build_of_unique
    · refine ⟨p, hp, ?_, rfl⟩
      simp only [providerContribution, hstatic, if_true]
      exact List.mem_map_of_mem _ hid
    · exact huni
  · intro g
    simp only [providerContribution, hstatic, if_true]
  · intro hmem
    have h2 : truthyOptStr p.modelsPath = true := (List.mem_filter.mp hmem).2
    simp [isStaticProvider, h2] at hstatic

/-- C8 witness: the amended statement at a collision-free registry. -/
theorem static_provider_registration_witness :
    mapGet (buildModelProviderMap [exStaticP] exFailEnv) (.str "m") =
      some (entryOf exStaticP) ∧
    (∀ g : DiscoveryEnv,
      providerContribution g exStaticP = (exStaticP.models.getD []).map Json.str) ∧
    exStaticP ∉ discoveryCallProviders [exStaticP] :=
  static_provider_registration [exStaticP] exFailEnv exStaticP (by decide) (by decide)
    "m" (by decide)
    (fun q hq _ => by
      have hqe : q = exStaticP := by simpa using hq
      rw [hqe])

/-- C9: every routing-table entry's `(upstreamHost, chatPath)` pair is
copied verbatim from exactly one registry descriptor — the one named by
its provider id (unique under a no-duplicate registry) — the entry's
model id belongs to that provider's contribution, and when the provider
is dynamic the entry exists only because its discovery succeeded, so no
entry references a provider whose discovery failed.  The table observed
by every dispatch and list operation is the built one, so the invariant
holds wherever the table is read. -/
theorem routing_entries_copied_from_registry (providers : List Provider) (f : DiscoveryEnv)
    (hnodup : (providers.map (fun p => p.providerId)).Nodup)
    (e : Json × ProviderInfo) (he : e ∈ buildModelProviderMap providers f) :
    ∃ p, p ∈ providers ∧ e.2 = entryOf p ∧ e.1 ∈ providerContribution f p ∧
      (truthyOptStr p.modelsPath = true →
        ∃ ids, providerFetchModels (f p) = .ok ids ∧ e.1 ∈ ids) ∧
      ∀ q, q ∈ providers → q.providerId = p.providerId → q = p := by
  rcases exists_provider_of_mem_build providers f e he with ⟨p, hp, hinfo, hcontrib⟩
  refine ⟨p, hp, hinfo, hcontrib, ?_, ?_⟩
  · intro htr
    have hstat : isStaticProvider p = false := by
      simp [isStaticProvider, htr]
    rw [providerContribution] at hcontrib
    simp only [hstat, Bool.false_eq_true, if_false, htr, if_true] at hcontrib
    cases hm : providerFetchModels (f p) with
    | ok ids =>
        rw [hm] at hcontrib
        exact ⟨ids, rfl, hcontrib⟩
    | error msg =>
        rw [hm] at hcontrib
        cases hcontrib
  · intro q hq hid
    exact List.inj_on_of_nodup_map hnodup hq hp hid

/-- C9 witness: the invariant at the sole entry built from a one-provider
registry. -/
theorem routing_entries_copied_from_registry_witness :
    ∃ p, p ∈ [exStaticP] ∧
      ((Json.str "m", entryOf exStaticP) : Json × ProviderInfo).2 = entryOf p ∧
      ((Json.str "m", entryOf exStaticP) : Json × ProviderInfo).1 ∈
        providerContribution exFailEnv p ∧
      (truthyOptStr p.modelsPath = true →
        ∃ ids, providerFetchModels (exFailEnv p) = .ok ids ∧
          ((Json.str "m", entryOf exStaticP) : Json × ProviderInfo).1 ∈ ids) ∧
      ∀ q, q ∈ [exStaticP] → q.providerId = p.providerId → q = p :=
  routing_entries_copied_from_registry [exStaticP] exFailEnv (by decide)
    (Json.str "m", entryOf exStaticP) (by decide)

/-- C6: for a request passing all four preconditions the dispatcher
issues exactly one upstream request, a POST to exactly
`https://upstreamHost + chatPath` of the model's owning provider, carrying
the parsed JSON body and only the fixed outbound header set — no inbound
header is consulted, so two authorized requests with the same body
produce identical upstream requests regardless of their other inbound
headers and of the upstream environment. -/
theorem dispatch_upstream_request_uniformity
    (r1 r2 : InboundRequest) (tbl : RoutingTable) (u1 u2 : UpstreamEnv)
    (b j : Json) (info : ProviderInfo)
    (hm1 : r1.method = "POST") (hm2 : r2.method = "POST")
    (ha1 : headersGet r1.headers "Authorization" = some ("Bearer " ++ WORKER_API_KEY))
    (ha2 : headersGet r2.headers "Authorization" = some ("Bearer " ++ WORKER_API_KEY))
    (hb1 : r1.bodyJson = some b) (hb2 : r2.bodyJson = some b)
    (hf : getField b "model" = .ok (some j)) (ht : truthyJson j = true)
    (hl : mapGet tbl j = some info) :
    (handleChatCompletionRequest r1 (some tbl) u1).upstreamCalls =
      [mkUpstreamRequest info b] ∧
    (handleChatCompletionRequest r2 (some tbl) u2).upstreamCalls =
      [mkUpstreamRequest info b] ∧
    mkUpstreamRequest info b =
      { method := "POST", url := "https://" ++ info.upstreamHost ++ info.chatPath,
        headers := fixedOutboundHeaders, body := b } := by
  refine ⟨?_, ?_, rfl⟩
  · cases hu : u1 (mkUpstreamRequest info b) <;>
      simp [handleChatCompletionRequest, hm1, ha1, hb1, hf, ht, hl, hu]
  · cases hu : u2 (mkUpstreamRequest info b) <;>
      simp [handleChatCompletionRequest, hm2, ha2, hb2, hf, ht, hl, hu]

/-- C6 witness: two authorized requests with the same body, one with an
extra inbound header and one with a lower-cased Authorization header
name, under different upstream environments. -/
theorem dispatch_upstream_request_uniformity_witness :
    (handleChatCompletionRequest exAuthedReq (some exTable) exUpstreamThrow).upstreamCalls =
      [mkUpstreamRequest ⟨"p1", "h1", "/c1"⟩ exBody] ∧
    (handleChatCompletionRequest exAuthedReq2 (some exTable) exUpstreamOk).upstreamCalls =
      [mkUpstreamRequest ⟨"p1", "h1", "/c1"⟩ exBody] ∧
    mkUpstreamRequest ⟨"p1", "h1", "/c1"⟩ exBody =
      { method := "POST", url := "https://" ++ "h1" ++ "/c1",
        headers := fixedOutboundHeaders, body := exBody } :=
  dispatch_upstream_request_uniformity exAuthedReq exAuthedReq2 exTable
    exUpstreamThrow exUpstreamOk exBody (.str "m") ⟨"p1", "h1", "/c1"⟩
    rfl rfl rfl rfl rfl rfl rfl rfl rfl

/-- C7: when the upstream fetch settles, the relayed response streams the
upstream body unmodified and propagates the upstream status and reason,
with `Content-Type` propagated (defaulting to `text/event-stream` when
absent), CORS opened and caching disabled; and the caller receives the
502 BadGateway body naming the model and the underlying error exactly
when the upstream fetch throws. -/
theorem dispatch_relay_semantics (req : InboundRequest) (tbl : RoutingTable)
    (u : UpstreamEnv) (b j : Json) (info : ProviderInfo)
    (hm : req.method = "POST")
    (ha : headersGet req.headers "Authorization" = some ("Bearer " ++ WORKER_API_KEY))
    (hb : req.bodyJson = some b)
    (hf : getField b "model" = .ok (some j)) (ht : truthyJson j = true)
    (hl : mapGet tbl j = some info) :
    (∀ ur, u (mkUpstreamRequest info b) = .ok ur →
      (handleChatCompletionRequest req (some tbl) u).result =
        .ok { status := ur.status, statusText := ur.statusText,
              headers := relayHeaders ur.contentType, body := .stream ur.body }) ∧
    (∀ ct, ("Access-Control-Allow-Origin", "*") ∈ relayHeaders ct ∧
      ("Cache-Control", "no-cache") ∈ relayHeaders ct) ∧
    (∀ s, s ≠ "" → contentTypeOrDefault (some s) = s) ∧
    contentTypeOrDefault none = "text/event-stream" ∧
    (∀ e, u (mkUpstreamRequest info b) = .error e →
      (handleChatCompletionRequest req (some tbl) u).result =
        .ok { status := 502, statusText := "", headers := [],
              body := .text (badGatewayBody j e) }) ∧
    ((∃ e, u (mkUpstreamRequest info b) = .error e) ↔
      ∃ e, (handleChatCompletionRequest req (some tbl) u).result =
        .ok { status := 502, statusText := "", headers := [],
              body := .text (badGatewayBody j e) }) := by
  have hok : ∀ ur, u (mkUpstreamRequest info b) = .ok ur →
      (handleChatCompletionRequest req (some tbl) u).result =
        .ok { status := ur.status, statusText := ur.statusText,
              headers := relayHeaders ur.contentType, body := .stream ur.body } := by
    intro ur hu
    simp [handleChatCompletionRequest, hm, ha, hb, hf, ht, hl, hu]
  have herr : ∀ e, u (mkUpstreamRequest info b) = .error e →
      (handleChatCompletionRequest req (some tbl) u).result =
        .ok { status := 502, statusText := "", headers := [],
              body := .text (badGatewayBody j e) } := by
    intro e hu
    simp [handleChatCompletionRequest, hm, ha, hb, hf, ht, hl, hu]
  refine ⟨hok, ?_, ?_, rfl, herr, ?_, ?_⟩
  · intro ct
    exact ⟨by simp [relayHeaders], by simp [relayHeaders]⟩
  · intro s hs
    simp [contentTypeOrDefault, hs]
  · rintro ⟨e, hu⟩
    exact ⟨e, herr e hu⟩
  · rintro ⟨e, hres⟩
    cases hu : u (mkUpstreamRequest info b) with
    | error e2 => exact ⟨e2, rfl⟩
    | ok ur =>
        rw [hok ur hu] at hres
        exact absurd hres (by simp)

/-- C7 witness: the 502 branch at a concrete authorized request whose
upstream fetch throws. -/
theorem dispatch_relay_semantics_witness :
    (handleChatCompletionRequest exAuthedReq (some exTable) exUpstreamThrow).result =
      .ok { status := 502, statusText := "", headers := [],
            body := .text (badGatewayBody (.str "m") "connection reset") } :=
  (dispatch_relay_semantics exAuthedReq exTable exUpstreamThrow exBody (.str "m")
    ⟨"p1", "h1", "/c1"⟩ rfl rfl rfl rfl rfl rfl).2.2.2.2.1 "connection reset" rfl
